import Mathlib

/-!
Verification of the 06-Shading renderer (src/06-Shading/main.cpp).

The development shallowly embeds the renderer's data model and operations:

* GL floats are modelled as exact rationals (`ℚ`).  The transcendental
  values the code obtains from `cos`, `sin`, `glm::radians` (via π) and
  `glm::normalize(vec3(1,1,1))` (via √3) are not rational, so they enter
  the embedding as explicit parameters: a `trig : ℚ → ℚ × ℚ` oracle
  standing for `(cos, sin)`, a `piQ : ℚ` standing for π, and an
  `ax : Vec3` standing for the normalized rotation axis.  Every claim
  settled here is about the algebraic structure of the computations,
  which is independent of the numeric values of those parameters.
* glm matrices are column-major: `M c r` is the entry of column `c`,
  row `r`, exactly `M[c][r]` in glm.
* The OpenGL object machinery (name generation, deletion, binding) is
  modelled by an explicit `AppState` record with one `Finset ℕ` of live
  names per object type, mirroring the separate GL name spaces for
  textures, renderbuffers, framebuffers and buffers.
* `renderScene` is embedded as a function producing the list of GL
  commands issued for one frame, in program order.
-/

/-- glm `vec3`, with exact rational components. -/
structure Vec3 where
  x : ℚ
  y : ℚ
  z : ℚ
deriving DecidableEq

/-- The zero vector, used as the (never reached) default for list indexing. -/
def vzero : Vec3 := ⟨0, 0, 0⟩

/-- glm `mat4`: 4 columns of 4 rows, `M c r = M[c][r]`. -/
abbrev Mat4 := Fin 4 → Fin 4 → ℚ

/-- glm `mat3x4`: 3 columns of 4 rows (the `InstanceData::transformation` field). -/
abbrev Mat3x4 := Fin 3 → Fin 4 → ℚ

/-- glm `mat4x3`: 4 columns of 3 rows (the floor transformation at main.cpp:770). -/
abbrev Mat4x3 := Fin 4 → Fin 3 → ℚ

/-- glm column-major matrix product: `(A*B)[c][r] = Σ k, A[k][r] * B[c][k]`. -/
def mul4 (A B : Mat4) : Mat4 := fun c r => ∑ k : Fin 4, A k r * B c k

/-- The identity `mat4(1)`. -/
def idMat4 : Mat4 := fun c r => if c.val = r.val then 1 else 0

/-- glm `translate(mat4(1), v)`: identity columns 0..2, column 3 = `(v, 1)`. -/
def translateM (v : Vec3) : Mat4 := fun c r =>
  if c.val = 3 then
    if r.val = 0 then v.x else if r.val = 1 then v.y else if r.val = 2 then v.z else 1
  else
    if r.val = c.val then 1 else 0

/-- glm `rotate(mat4(1), angle, v)` with `cosA = cos angle`, `sinA = sin angle`
and `ax = normalize(v)` supplied as parameters (they are transcendental for the
source's inputs).  Entry for entry this is glm's `Rotate` matrix extended by the
implicit affine column `(0,0,0,1)` and row `(0,0,0)` of `Result = m * Rotate`
at `m = mat4(1)`. -/
def rotateM (cosA sinA : ℚ) (ax : Vec3) : Mat4 := fun c r =>
  if c.val = 0 then
    if r.val = 0 then cosA + (1 - cosA) * ax.x * ax.x
    else if r.val = 1 then (1 - cosA) * ax.x * ax.y + sinA * ax.z
    else if r.val = 2 then (1 - cosA) * ax.x * ax.z - sinA * ax.y
    else 0
  else if c.val = 1 then
    if r.val = 0 then (1 - cosA) * ax.y * ax.x - sinA * ax.z
    else if r.val = 1 then cosA + (1 - cosA) * ax.y * ax.y
    else if r.val = 2 then (1 - cosA) * ax.y * ax.z + sinA * ax.x
    else 0
  else if c.val = 2 then
    if r.val = 0 then (1 - cosA) * ax.z * ax.x + sinA * ax.y
    else if r.val = 1 then (1 - cosA) * ax.z * ax.y - sinA * ax.x
    else if r.val = 2 then cosA + (1 - cosA) * ax.z * ax.z
    else 0
  else
    if r.val = 3 then 1 else 0

/-- glm `scale(mat4(1), v)`. -/
def scale4 (v : Vec3) : Mat4 := fun c r =>
  if c.val = r.val then
    if c.val = 0 then v.x else if c.val = 1 then v.y else if c.val = 2 then v.z else 1
  else 0

/-- glm `radians(deg) = deg * π / 180`, with π passed as the parameter `piQ`. -/
def radiansQ (deg piQ : ℚ) : ℚ := deg * piQ / 180

/-- The assignment `instanceData[i].transformation = glm::transpose(t)` at
main.cpp:675: `transpose` of a `mat4` followed by the implicit glm conversion
to `mat3x4`, which keeps the first three columns of the transpose, i.e. the
first three rows of `t`. -/
def packM (M : Mat4) : Mat3x4 := fun c r => M r c.castSucc

/-- Modelled from the spec: the spec's testable property "unpacking the
transposed 3x4 storage and re-transposing reproduces the original 4x4
transform" names an unpacking operation that does not occur in the code.
Following the spec's words, it re-transposes the stored matrix and restores
the implicit `(0,0,0,1)` part dropped by the packing. -/
def unpackM (N : Mat3x4) : Mat4 := fun c r =>
  if h : r.val < 3 then N ⟨r.val, h⟩ c else if c.val = 3 then 1 else 0

/-- An affine transform in glm's column-major layout: its fourth row (the part
dropped by the 3x4 packing) is `(0, 0, 0, 1)`. -/
def lastRowAffine (M : Mat4) : Prop := ∀ c : Fin 4, M c 3 = if c.val = 3 then 1 else 0

/-- The per-instance world transform computed in the loop at
main.cpp:672-673: `glm::translate(cubePositions[i])` multiplied on the right
by `glm::rotate(glm::radians(i * 20.0f), glm::vec3(1,1,1))`. -/
def instanceTransform (positions : List Vec3) (piQ : ℚ) (trig : ℚ → ℚ × ℚ)
    (ax : Vec3) (i : ℕ) : Mat4 :=
  mul4 (translateM (positions.getD i vzero))
    (rotateM (trig (radiansQ ((i : ℚ) * 20) piQ)).1
      (trig (radiansQ ((i : ℚ) * 20) piQ)).2 ax)

/-- Maximum number of allowed instances (main.cpp:92). -/
def MAX_INSTANCES : ℕ := 1024

/-- MSAA samples (main.cpp:96). -/
def MSAA_SAMPLES : ℕ := 4

/-- Number of cubes in the scene (main.cpp:101). -/
def numCubes : ℕ := 10

/-- The loop of `updateInstanceData` (main.cpp:669-676): for each
`i < nc` it overwrites entry `i` of the capacity-sized CPU staging vector
(`static std::vector<InstanceData> instanceData(MAX_INSTANCES)`, modelled as a
total map from indices to records) with the packed world transform of cube
`i`.  Entries at and beyond `nc` are never touched. -/
def updateInstanceStaging (nc : ℕ) (positions : List Vec3) (piQ : ℚ)
    (trig : ℚ → ℚ × ℚ) (ax : Vec3) (buf : ℕ → Mat3x4) : ℕ → Mat3x4 :=
  (List.range nc).foldl
    (fun b i => Function.update b i (packM (instanceTransform positions piQ trig ax i)))
    buf


/-! ## Application and GL object state

The GL object machinery is modelled explicitly: each object type has its own
name space (a `Finset ℕ` of currently live names), `glGen*` draws a fresh name
from a strictly increasing counter, `glDelete*` erases a name from the set of
its own type only — exactly the GL rule that e.g. `glDeleteTextures` silently
ignores names that do not denote textures. -/

/-- Window default width (main.cpp:42). -/
def DefaultWidth : Int := 800

/-- Window default height (main.cpp:44). -/
def DefaultHeight : Int := 600

/-- Expected UBO size checked in `initOpenGL` (main.cpp:407): `4096 * 4 * 4`. -/
def expectedUboSize : ℕ := 4096 * 4 * 4

/-- The mutable globals of main.cpp together with the GL object state. -/
structure AppState where
  winWidth : Int
  winHeight : Int
  msaaLevel : ℕ
  fbo : ℕ
  renderTarget : ℕ
  depthStencil : ℕ
  vao : ℕ
  instancingBuffer : ℕ
  transformBlockUBO : ℕ
  liveTextures : Finset ℕ
  liveRenderbuffers : Finset ℕ
  liveFramebuffers : Finset ℕ
  liveBuffers : Finset ℕ
  nextName : ℕ
  boundDrawFramebuffer : ℕ
  boundReadFramebuffer : ℕ
  fbWidth : Int
  fbHeight : Int
  fbSamples : ℕ
  depthTest : Bool
  wireframe : Bool
  tonemapping : Bool
  vsync : Bool
  cullFaceEnabled : Bool
  shouldClose : Bool
  fov : ℚ
  cubePositions : List Vec3
deriving DecidableEq

/-- The initial values of the globals in main.cpp (all handles zero, `msaaLevel
= MSAA_SAMPLES`, `vsync = depthTest = tonemapping = true`, `wireframe =
false`, `fov = 45`); GL names start at 1, so the fresh-name counter does too. -/
def initState : AppState :=
  { winWidth := 0, winHeight := 0, msaaLevel := MSAA_SAMPLES
    fbo := 0, renderTarget := 0, depthStencil := 0, vao := 0
    instancingBuffer := 0, transformBlockUBO := 0
    liveTextures := ∅, liveRenderbuffers := ∅, liveFramebuffers := ∅, liveBuffers := ∅
    nextName := 1, boundDrawFramebuffer := 0, boundReadFramebuffer := 0
    fbWidth := 0, fbHeight := 0, fbSamples := 0
    depthTest := true, wireframe := false, tonemapping := true, vsync := true
    cullFaceEnabled := false, shouldClose := false, fov := 45, cubePositions := [] }

/-- Statement `glBindFramebuffer(GL_FRAMEBUFFER, 0)`: binding target
`GL_FRAMEBUFFER` sets both the draw and the read binding. -/
def cfBindDefault (s : AppState) : AppState :=
  { s with boundDrawFramebuffer := 0, boundReadFramebuffer := 0 }

/-- Statements `if (!fbo) { glGenFramebuffers(1, &fbo); }` (main.cpp:464-467). -/
def cfEnsureFbo (s : AppState) : AppState :=
  if s.fbo = 0 then
    { s with fbo := s.nextName, liveFramebuffers := insert s.nextName s.liveFramebuffers,
             nextName := s.nextName + 1 }
  else s

/-- Statement `glBindFramebuffer(GL_FRAMEBUFFER, fbo)` (main.cpp:470). -/
def cfBindFbo (s : AppState) : AppState :=
  { s with boundDrawFramebuffer := s.fbo, boundReadFramebuffer := s.fbo }

/-- Statements `if (glIsTexture(renderTarget)) { glDeleteTextures(1,
&renderTarget); renderTarget = 0; }` (main.cpp:477-481). -/
def cfDeleteColor (s : AppState) : AppState :=
  if s.renderTarget ∈ s.liveTextures then
    { s with liveTextures := s.liveTextures.erase s.renderTarget, renderTarget := 0 }
  else s

/-- Statements `if (renderTarget == 0) { glGenTextures(1, &renderTarget); }`
(main.cpp:484-487). -/
def cfGenColor (s : AppState) : AppState :=
  if s.renderTarget = 0 then
    { s with renderTarget := s.nextName, nextName := s.nextName + 1 }
  else s

/-- The `glBindTexture` + `glTexImage2D(Multisample)` statements
(main.cpp:490-503): both branches make the name a live texture with
`width × height` storage; the multisample branch uses `MSAA` samples, the
other is single-sampled. -/
def cfStoreColor (width height : Int) (MSAA : ℕ) (s : AppState) : AppState :=
  { s with liveTextures := insert s.renderTarget s.liveTextures,
           fbWidth := width, fbHeight := height,
           fbSamples := if 1 < MSAA then MSAA else 1 }

/-- Statements `if (glIsRenderbuffer(depthStencil)) { glDeleteRenderbuffers(1,
&depthStencil); depthStencil = 0; }` (main.cpp:510-514). -/
def cfDeleteDepth (s : AppState) : AppState :=
  if s.depthStencil ∈ s.liveRenderbuffers then
    { s with liveRenderbuffers := s.liveRenderbuffers.erase s.depthStencil, depthStencil := 0 }
  else s

/-- Statements `if (depthStencil == 0) { glGenRenderbuffers(1, &depthStencil); }`
(main.cpp:517-520). -/
def cfGenDepth (s : AppState) : AppState :=
  if s.depthStencil = 0 then
    { s with depthStencil := s.nextName, nextName := s.nextName + 1 }
  else s

/-- The `glBindRenderbuffer` + `glRenderbufferStorage(Multisample)` statements
(main.cpp:523-531): the name becomes a live renderbuffer. -/
def cfStoreDepth (s : AppState) : AppState :=
  { s with liveRenderbuffers := insert s.depthStencil s.liveRenderbuffers }

/-- `createFramebuffer(width, height, MSAA)` (main.cpp:458-547), as the
composition of its statement blocks in program order.  `glDrawBuffers` and
`glCheckFramebufferStatus` change no modelled object state (an incomplete
framebuffer is only reported, never rolled back), and the function ends by
rebinding the window-system framebuffer.  No validation of `width`, `height`
or `MSAA` occurs anywhere. -/
def createFramebuffer (width height : Int) (MSAA : ℕ) (s : AppState) : AppState :=
  cfBindDefault
    (cfStoreDepth (cfGenDepth (cfDeleteDepth
      (cfStoreColor width height MSAA (cfGenColor (cfDeleteColor
        (cfBindFbo (cfEnsureFbo (cfBindDefault s)))))))))

/-- `resizeCallback` (main.cpp:176-184): records the new window size and
recreates the framebuffer at the current `msaaLevel` (the viewport and camera
projection calls touch no modelled state). -/
def resizeCallback (width height : Int) (s : AppState) : AppState :=
  createFramebuffer width height s.msaaLevel { s with winWidth := width, winHeight := height }

/-- GLFW key code `GLFW_KEY_ESCAPE`. -/
def GLFW_KEY_ESCAPE : ℕ := 256
/-- GLFW key code `GLFW_KEY_F1`. -/
def GLFW_KEY_F1 : ℕ := 290
/-- GLFW key code `GLFW_KEY_F2`. -/
def GLFW_KEY_F2 : ℕ := 291
/-- GLFW key code `GLFW_KEY_F3`. -/
def GLFW_KEY_F3 : ℕ := 292
/-- GLFW key code `GLFW_KEY_F4`. -/
def GLFW_KEY_F4 : ℕ := 293
/-- GLFW key code `GLFW_KEY_F5`. -/
def GLFW_KEY_F5 : ℕ := 294
/-- GLFW key code `GLFW_KEY_F6`. -/
def GLFW_KEY_F6 : ℕ := 295
/-- GLFW key code `GLFW_KEY_KP_ADD`. -/
def GLFW_KEY_KP_ADD : ℕ := 334
/-- GLFW key code `GLFW_KEY_KP_SUBTRACT`. -/
def GLFW_KEY_KP_SUBTRACT : ℕ := 333
/-- GLFW key code `GLFW_KEY_EQUAL`. -/
def GLFW_KEY_EQUAL : ℕ := 61
/-- GLFW key code `GLFW_KEY_MINUS`. -/
def GLFW_KEY_MINUS : ℕ := 45
/-- GLFW key code `GLFW_KEY_BACKSPACE`. -/
def GLFW_KEY_BACKSPACE : ℕ := 259
/-- GLFW action code `GLFW_PRESS`. -/
def GLFW_PRESS : ℕ := 1

/-- The `GLFW_KEY_ESCAPE` branch of `keyCallback` (main.cpp:198-199). -/
def kcEscape (key action : ℕ) (s : AppState) : AppState :=
  if key = GLFW_KEY_ESCAPE ∧ action = GLFW_PRESS then { s with shouldClose := true } else s

/-- The `GLFW_KEY_F1` branch of `keyCallback` (main.cpp:202-214): toggle
`msaaLevel` between 1 and `MSAA_SAMPLES`, then recreate the framebuffer at
the current window size with the new level. -/
def kcMsaaToggle (key action : ℕ) (s : AppState) : AppState :=
  if key = GLFW_KEY_F1 ∧ action = GLFW_PRESS then
    let t := if 1 < s.msaaLevel then { s with msaaLevel := 1 }
             else { s with msaaLevel := MSAA_SAMPLES }
    createFramebuffer t.winWidth t.winHeight t.msaaLevel t
  else s

/-- The `GLFW_KEY_F2` branch of `keyCallback` (main.cpp:217-220). -/
def kcWireframe (key action : ℕ) (s : AppState) : AppState :=
  if key = GLFW_KEY_F2 ∧ action = GLFW_PRESS then { s with wireframe := !s.wireframe } else s

/-- The `GLFW_KEY_F3` branch of `keyCallback` (main.cpp:223-229). -/
def kcCullFace (key action : ℕ) (s : AppState) : AppState :=
  if key = GLFW_KEY_F3 ∧ action = GLFW_PRESS then
    { s with cullFaceEnabled := !s.cullFaceEnabled } else s

/-- The `GLFW_KEY_F4` branch of `keyCallback` (main.cpp:232-235). -/
def kcDepthTest (key action : ℕ) (s : AppState) : AppState :=
  if key = GLFW_KEY_F4 ∧ action = GLFW_PRESS then { s with depthTest := !s.depthTest } else s

/-- The `GLFW_KEY_F5` branch of `keyCallback` (main.cpp:238-245). -/
def kcVsync (key action : ℕ) (s : AppState) : AppState :=
  if key = GLFW_KEY_F5 ∧ action = GLFW_PRESS then { s with vsync := !s.vsync } else s

/-- The `GLFW_KEY_F6` branch of `keyCallback` (main.cpp:248-251). -/
def kcTonemapping (key action : ℕ) (s : AppState) : AppState :=
  if key = GLFW_KEY_F6 ∧ action = GLFW_PRESS then { s with tonemapping := !s.tonemapping } else s

/-- The zoom-in branch (main.cpp:254-259).  The source condition keeps C++
precedence: `KP_ADD || (EQUAL && PRESS)`, so `KP_ADD` fires for any action. -/
def kcZoomIn (key action : ℕ) (s : AppState) : AppState :=
  if key = GLFW_KEY_KP_ADD ∨ (key = GLFW_KEY_EQUAL ∧ action = GLFW_PRESS) then
    { s with fov := if s.fov - 1 < 5 then 5 else s.fov - 1 } else s

/-- The zoom-out branch (main.cpp:262-267), same precedence note. -/
def kcZoomOut (key action : ℕ) (s : AppState) : AppState :=
  if key = GLFW_KEY_KP_SUBTRACT ∨ (key = GLFW_KEY_MINUS ∧ action = GLFW_PRESS) then
    { s with fov := if 180 ≤ s.fov + 1 then 179 else s.fov + 1 } else s

/-- The `GLFW_KEY_BACKSPACE` branch (main.cpp:269-272). -/
def kcFovReset (key action : ℕ) (s : AppState) : AppState :=
  if key = GLFW_KEY_BACKSPACE ∧ action = GLFW_PRESS then { s with fov := 45 } else s

/-- `keyCallback` (main.cpp:195-276): the branches in program order (they are
independent `if`s, not `else if`s).  The trailing `camera.SetProjection` call
touches no modelled state. -/
def keyCallback (key action : ℕ) (s : AppState) : AppState :=
  kcFovReset key action (kcZoomOut key action (kcZoomIn key action
    (kcTonemapping key action (kcVsync key action (kcDepthTest key action
      (kcCullFace key action (kcWireframe key action (kcMsaaToggle key action
        (kcEscape key action s)))))))))

/-- `initOpenGL` (main.cpp:363-455) restricted to the modelled state.  The
GLFW/GLAD calls are external collaborators assumed to succeed; the two
startup capability checks are translated faithfully: the available UBO size
(a parameter, queried from the driver in the source) must reach
`expectedUboSize` (main.cpp:406-413), and `numCubes > MAX_INSTANCES` is a
fatal error (main.cpp:416-420).  On success the cull-face flag is enabled and
`resizeCallback` runs once at the default window size, creating the
framebuffer at the current `msaaLevel`. -/
def initOpenGL (nc : ℕ) (maxUboSize : ℕ) (s : AppState) : Option AppState :=
  if maxUboSize < expectedUboSize then none
  else if MAX_INSTANCES < nc then none
  else some (resizeCallback DefaultWidth DefaultHeight { s with cullFaceEnabled := true })

/-- The cube position list built by `createGeometry` (main.cpp:347-359): one
fixed position half a meter above the origin, then `nc` random positions
pushed by the loop `for (i = 1; i <= numCubes; ++i)` — `nc + 1` entries in
total.  `rand` is the stream of values produced by the successive `getRandom`
calls, three per loop iteration (x, y, z in that order). -/
def cubePositionsList (nc : ℕ) (rand : ℕ → ℚ) : List Vec3 :=
  ⟨0, 1/2, 0⟩ :: (List.range nc).map (fun k => ⟨rand (3 * k), rand (3 * k + 1), rand (3 * k + 2)⟩)

/-- `createGeometry` (main.cpp:298-360) restricted to the modelled state: a
fresh VAO name, fresh instancing and transform-block buffer names (the UBO
size query and binding plumbing touch no modelled object state), and the cube
position list. -/
def createGeometry (rand : ℕ → ℚ) (s : AppState) : AppState :=
  let s1 := { s with vao := s.nextName, nextName := s.nextName + 1 }
  let s2 := { s1 with instancingBuffer := s1.nextName,
                      liveBuffers := insert s1.nextName s1.liveBuffers,
                      nextName := s1.nextName + 1 }
  let s3 := { s2 with transformBlockUBO := s2.nextName,
                      liveBuffers := insert s2.nextName s2.liveBuffers,
                      nextName := s2.nextName + 1 }
  { s3 with cubePositions := cubePositionsList numCubes rand }

/-- `shutDown` (main.cpp:550-583), call for call on the modelled object state.
`glDeleteTextures(1, &depthStencil)` at main.cpp:569 erases the name from the
texture name space — per the GL rule it silently ignores names that are not
texture names, and `depthStencil` holds a renderbuffer name.  The shader
programs, meshes, loaded textures and the window belong to external
collaborators; the general VAO has no modelled live set. -/
def shutDown (s : AppState) : AppState :=
  -- glDeleteBuffers(1, &instancingBuffer)
  let s1 := { s with liveBuffers := s.liveBuffers.erase s.instancingBuffer }
  -- glDeleteTextures(1, &renderTarget)
  let s2 := { s1 with liveTextures := s1.liveTextures.erase s1.renderTarget }
  -- glDeleteTextures(1, &depthStencil)  ← a renderbuffer name, not a texture name
  let s3 := { s2 with liveTextures := s2.liveTextures.erase s2.depthStencil }
  -- glDeleteFramebuffers(1, &fbo)
  { s3 with liveFramebuffers := s3.liveFramebuffers.erase s3.fbo }

/-- The effect of one `renderScene` call on the modelled object state: no
object is created or destroyed and no global is written; only the framebuffer
bindings differ between the two presentation paths (main.cpp:825-868). -/
def frameStep (s : AppState) : AppState :=
  if s.tonemapping then
    { s with boundDrawFramebuffer := 0, boundReadFramebuffer := 0 }
  else
    { s with boundDrawFramebuffer := 0, boundReadFramebuffer := s.fbo }

/-! ## The per-frame command stream

`renderScene` (main.cpp:724-869) is embedded as the list of GL commands it
issues, in program order.  Camera state, shader program handles, uniform
locations, texture handles and mesh metadata are read-only collaborator
outputs and enter as fields of `RenderContext`. -/

/-- GL enum `GL_FRAMEBUFFER`. -/
def GL_FRAMEBUFFER : ℕ := 36160
/-- GL enum `GL_DRAW_FRAMEBUFFER`. -/
def GL_DRAW_FRAMEBUFFER : ℕ := 36009
/-- GL enum `GL_READ_FRAMEBUFFER`. -/
def GL_READ_FRAMEBUFFER : ℕ := 36008
/-- GL enum `GL_UNIFORM_BUFFER`. -/
def GL_UNIFORM_BUFFER : ℕ := 35345
/-- GL enum `GL_DEPTH_TEST`. -/
def GL_DEPTH_TEST : ℕ := 2929
/-- GL enum `GL_MULTISAMPLE`. -/
def GL_MULTISAMPLE : ℕ := 32925
/-- GL enum `GL_LEQUAL`. -/
def GL_LEQUAL : ℕ := 515
/-- GL enum `GL_LINE`. -/
def GL_LINE : ℕ := 6913
/-- GL enum `GL_FILL`. -/
def GL_FILL : ℕ := 6914
/-- GL bit `GL_COLOR_BUFFER_BIT`. -/
def GL_COLOR_BUFFER_BIT : ℕ := 16384
/-- GL bit `GL_DEPTH_BUFFER_BIT`. -/
def GL_DEPTH_BUFFER_BIT : ℕ := 256
/-- GL enum `GL_TEXTURE_2D`. -/
def GL_TEXTURE_2D : ℕ := 3553
/-- GL enum `GL_TEXTURE_2D_MULTISAMPLE`. -/
def GL_TEXTURE_2D_MULTISAMPLE : ℕ := 37120
/-- GL enum `GL_TEXTURE0`. -/
def GL_TEXTURE0 : ℕ := 33984
/-- GL enum `GL_BACK`. -/
def GL_BACK : ℕ := 1029

/-- One GL call issued by `renderScene`, with the data the claims need.
Matrix and vector arguments are carried as the flat float lists the GL
API receives. -/
inductive Cmd where
  | bindFramebuffer (target fb : ℕ)
  | bindBuffer (target buf : ℕ)
  | bindBufferBase (target index buf : ℕ)
  | bufferSubData (byteOffset : ℕ) (data : List ℚ)
  | mapBufferWrite (data : List ℚ)
  | enable (cap : ℕ)
  | disable (cap : ℕ)
  | depthFunc (f : ℕ)
  | depthMask (flag : Bool)
  | polygonMode (mode : ℕ)
  | clearColor (r g b a : ℚ)
  | clear (mask : ℕ)
  | useProgram (p : ℕ)
  | uniform1f (loc : ℕ) (v : ℚ)
  | uniform3f (loc : ℕ) (x y z : ℚ)
  | uniform4f (loc : ℕ) (x y z w : ℚ)
  | uniformMatrix4x3 (loc : ℕ) (data : List ℚ)
  | activeTexture (unit : ℕ)
  | bindTexture (target tex : ℕ)
  | bindSampler (unit sampler : ℕ)
  | bindVertexArray (v : ℕ)
  | drawElements (count : ℕ)
  | drawElementsInstanced (count instances : ℕ)
  | drawArrays (first count : ℕ)
  | pointSize (size : ℚ)
  | drawBuffer (b : ℕ)
  | blitFramebuffer (w h : Int)
deriving DecidableEq

/-- The read-only inputs of one `renderScene` call. -/
structure RenderContext where
  app : AppState
  nc : ℕ
  worldToView : Mat4
  projection : Mat4
  viewPos : Fin 4 → ℚ
  piQ : ℚ
  trig : ℚ → ℚ × ℚ
  ax : Vec3
  shaderDefault : ℕ
  shaderInstancing : ℕ
  shaderPoint : ℕ
  shaderTonemap : ℕ
  texWhite : ℕ
  texGrey : ℕ
  texBlue : ℕ
  texChecker : ℕ
  texDiffuse : ℕ
  texNormal : ℕ
  texSpecular : ℕ
  texOcclusion : ℕ
  samplerAniso : ℕ
  lightLoc : ℕ
  viewPosLoc : ℕ
  pointPosLoc : ℕ
  quadVAO : ℕ
  cubeVAO : ℕ
  quadIBOSize : ℕ
  cubeIBOSize : ℕ

/-- Column-major flattening of a `mat3x4` — the 12 floats `value_ptr` exposes. -/
def flatten3x4 (N : Mat3x4) : List ℚ :=
  [N 0 0, N 0 1, N 0 2, N 0 3, N 1 0, N 1 1, N 1 2, N 1 3, N 2 0, N 2 1, N 2 2, N 2 3]

/-- Column-major flattening of a `mat4` — the 16 floats `value_ptr` exposes. -/
def flatten4 (M : Mat4) : List ℚ :=
  [M 0 0, M 0 1, M 0 2, M 0 3, M 1 0, M 1 1, M 1 2, M 1 3,
   M 2 0, M 2 1, M 2 2, M 2 3, M 3 0, M 3 1, M 3 2, M 3 3]

/-- The glm conversion `mat4x3(m4)`: keep all 4 columns, drop the last row. -/
def toMat4x3 (M : Mat4) : Mat4x3 := fun c r => M c r.castSucc

/-- Column-major flattening of a `mat4x3` — the 12 floats `value_ptr` exposes. -/
def flatten4x3 (M : Mat4x3) : List ℚ :=
  [M 0 0, M 0 1, M 0 2, M 1 0, M 1 1, M 1 2, M 2 0, M 2 1, M 2 2, M 3 0, M 3 1, M 3 2]

/-- Size in bytes of a glm `mat3x4` (12 floats of 4 bytes): 48. -/
def sizeofMat3x4 : ℕ := 12 * 4

/-- Size in bytes of a glm `mat4x4` (16 floats of 4 bytes): 64. -/
def sizeofMat4x4 : ℕ := 16 * 4

/-- The concatenation `f 0 ++ f 1 ++ ... ++ f (n-1)`, used to model a
`memcpy` of `n` consecutive records. -/
def concatMapRange (f : ℕ → List ℚ) : ℕ → List ℚ
  | 0 => []
  | n + 1 => concatMapRange f n ++ f n

/-- The bytes `memcpy` copies out of the staging vector at main.cpp:683:
the first `nc` records (12 floats each, `nc * sizeof(InstanceData)` bytes)
of the staging buffer after the update loop.  The staging vector's previous
contents (second argument of `updateInstanceStaging`) do not matter because
the loop overwrites every copied record; the value-initialized vector is
used here. -/
def instanceUploadFloats (nc : ℕ) (positions : List Vec3) (piQ : ℚ)
    (trig : ℚ → ℚ × ℚ) (ax : Vec3) : List ℚ :=
  concatMapRange
    (fun i => flatten3x4 (updateInstanceStaging nc positions piQ trig ax (fun _ _ _ => 0) i)) nc

/-- `updateTransformBlock` (main.cpp:702-722) as commands: bind the transform
UBO, write the transposed world-to-view matrix (48 bytes) at byte offset 0,
write the projection matrix (64 bytes) at byte offset `sizeof(glm::mat3x4)`,
unbind. -/
def updateTransformBlockCmds (rc : RenderContext) : List Cmd :=
  [ .bindBuffer GL_UNIFORM_BUFFER rc.app.transformBlockUBO,
    .bufferSubData 0 (flatten3x4 (packM rc.worldToView)),
    .bufferSubData sizeofMat3x4 (flatten4 rc.projection),
    .bindBuffer GL_UNIFORM_BUFFER 0 ]

/-- `updateProgramData` (main.cpp:687-699) as commands. -/
def updateProgramDataCmds (rc : RenderContext) : List Cmd :=
  [ .uniform3f rc.lightLoc (-3) 3 0,
    .uniform4f rc.viewPosLoc (rc.viewPos 0) (rc.viewPos 1) (rc.viewPos 2) (rc.viewPos 3) ]

/-- `bindTextures` (main.cpp:640-658) as commands. -/
def bindTexturesCmds (rc : RenderContext) (diffuse normal specular occlusion : ℕ) : List Cmd :=
  [ .activeTexture (GL_TEXTURE0 + 0), .bindTexture GL_TEXTURE_2D diffuse,
    .bindSampler 0 rc.samplerAniso,
    .activeTexture (GL_TEXTURE0 + 1), .bindTexture GL_TEXTURE_2D normal,
    .bindSampler 1 rc.samplerAniso,
    .activeTexture (GL_TEXTURE0 + 2), .bindTexture GL_TEXTURE_2D specular,
    .bindSampler 2 rc.samplerAniso,
    .activeTexture (GL_TEXTURE0 + 3), .bindTexture GL_TEXTURE_2D occlusion,
    .bindSampler 3 rc.samplerAniso ]

/-- `updateInstanceData` (main.cpp:661-685) as commands: bind the instancing
buffer to index 1, then the map/memcpy/unmap upload of the first `nc` staged
records. -/
def updateInstanceDataCmds (rc : RenderContext) : List Cmd :=
  [ .bindBufferBase GL_UNIFORM_BUFFER 1 rc.app.instancingBuffer,
    .mapBufferWrite (instanceUploadFloats rc.nc rc.app.cubePositions rc.piQ rc.trig rc.ax) ]

/-- The floor block of `renderScene` (main.cpp:765-777). -/
def floorCmds (rc : RenderContext) : List Cmd :=
  .useProgram rc.shaderDefault ::
  updateProgramDataCmds rc ++
  [ .uniformMatrix4x3 0 (flatten4x3 (toMat4x3 (scale4 ⟨30, 1, 30⟩))) ] ++
  bindTexturesCmds rc rc.texChecker rc.texBlue rc.texGrey rc.texWhite ++
  [ .bindVertexArray rc.quadVAO, .drawElements rc.quadIBOSize ]

/-- The cube block of `renderScene` (main.cpp:782-798): one instanced draw of
`nc` instances, preceded by the instance upload. -/
def cubeCmds (rc : RenderContext) : List Cmd :=
  .useProgram rc.shaderInstancing ::
  updateProgramDataCmds rc ++
  updateInstanceDataCmds rc ++
  bindTexturesCmds rc rc.texDiffuse rc.texNormal rc.texSpecular rc.texOcclusion ++
  [ .bindVertexArray rc.cubeVAO, .drawElementsInstanced rc.cubeIBOSize rc.nc,
    .bindBufferBase GL_UNIFORM_BUFFER 1 0 ]

/-- The light-point block of `renderScene` (main.cpp:803-817).  Note the
source queries the `color` location but then passes literal `0` to
`glUniform3f` (main.cpp:811-812); the embedding keeps that. -/
def lightCmds (rc : RenderContext) : List Cmd :=
  [ .useProgram rc.shaderPoint,
    .uniform3f rc.pointPosLoc (-3) 3 0,
    .uniform3f 0 1 1 1,
    .pointSize 10,
    .bindVertexArray rc.app.vao,
    .drawArrays 0 1 ]

/-- The offscreen phase of `renderScene` (main.cpp:726-823): everything from
binding the HDR framebuffer up to unbinding the shader program — none of it
consults the tonemapping flag. -/
def offscreenCmds (rc : RenderContext) : List Cmd :=
  .bindFramebuffer GL_FRAMEBUFFER rc.app.fbo ::
  (if rc.app.depthTest then
     [Cmd.enable GL_DEPTH_TEST, .depthFunc GL_LEQUAL, .depthMask true]
   else [Cmd.disable GL_DEPTH_TEST]) ++
  (if 1 < rc.app.msaaLevel then [Cmd.enable GL_MULTISAMPLE] else [Cmd.disable GL_MULTISAMPLE]) ++
  (if rc.app.wireframe then [Cmd.polygonMode GL_LINE] else [Cmd.polygonMode GL_FILL]) ++
  [ .clearColor (1/10) (2/10) (4/10) 1, .clear (GL_COLOR_BUFFER_BIT + GL_DEPTH_BUFFER_BIT) ] ++
  floorCmds rc ++ cubeCmds rc ++ lightCmds rc ++
  [ .bindVertexArray 0, .useProgram 0 ]

/-- The presentation phase of `renderScene` (main.cpp:825-868): the full-screen
tonemap pass when tonemapping is on, otherwise the framebuffer blit. -/
def presentCmds (rc : RenderContext) : List Cmd :=
  if rc.app.tonemapping then
    [ .bindFramebuffer GL_FRAMEBUFFER 0,
      .polygonMode GL_FILL,
      .disable GL_MULTISAMPLE, .disable GL_DEPTH_TEST,
      .clearColor 0 0 0 1, .clear GL_COLOR_BUFFER_BIT,
      .useProgram rc.shaderTonemap,
      .uniform1f 0 (rc.app.msaaLevel : ℚ),
      .activeTexture GL_TEXTURE0,
      .bindTexture (if 1 < rc.app.msaaLevel then GL_TEXTURE_2D_MULTISAMPLE else GL_TEXTURE_2D)
        rc.app.renderTarget,
      .bindSampler 0 0,
      .bindVertexArray rc.app.vao,
      .drawArrays 0 6,
      .bindVertexArray 0, .useProgram 0 ]
  else
    [ .bindFramebuffer GL_DRAW_FRAMEBUFFER 0,
      .bindFramebuffer GL_READ_FRAMEBUFFER rc.app.fbo,
      .drawBuffer GL_BACK,
      .blitFramebuffer rc.app.winWidth rc.app.winHeight ]

/-- `renderScene` (main.cpp:724-869): the transform block update, then the
offscreen phase, then the presentation phase, in program order. -/
def renderSceneCmds (rc : RenderContext) : List Cmd :=
  updateTransformBlockCmds rc ++ offscreenCmds rc ++ presentCmds rc

/-- Draw commands — the calls that consume the transform block and scene
resources (`glDrawElements`, `glDrawElementsInstanced`, `glDrawArrays`). -/
def isDraw : Cmd → Bool
  | .drawElements _ => true
  | .drawElementsInstanced _ _ => true
  | .drawArrays _ _ => true
  | _ => false

/-- The one instanced draw call (`glDrawElementsInstanced`). -/
def isInstancedDraw : Cmd → Bool
  | .drawElementsInstanced _ _ => true
  | _ => false

/-- The instance-buffer upload (the `glMapBuffer`/`memcpy`/`glUnmapBuffer`
sequence of `updateInstanceData`). -/
def isInstanceUpload : Cmd → Bool
  | .mapBufferWrite _ => true
  | _ => false

/-- A transform-block write: `glBufferSubData` is issued only by
`updateTransformBlock` in this program. -/
def isTransformWrite : Cmd → Bool
  | .bufferSubData _ _ => true
  | _ => false

/-- Commands that write pixels to the currently bound draw framebuffer. -/
def writesPixels : Cmd → Bool
  | .clear _ => true
  | .drawElements _ => true
  | .drawElementsInstanced _ _ => true
  | .drawArrays _ _ => true
  | .blitFramebuffer _ _ => true
  | _ => false

/-- Scanning left to right, some `p` command occurs strictly before the first
`q` command (vacuously true when no `q` command occurs). -/
def precedes (p q : Cmd → Bool) : List Cmd → Bool
  | [] => true
  | c :: rest => if q c then false else if p c then true else precedes p q rest

/-- One step of framebuffer-binding bookkeeping: `GL_FRAMEBUFFER` sets both
bindings, `GL_DRAW_FRAMEBUFFER`/`GL_READ_FRAMEBUFFER` one each; every other
command leaves them unchanged.  The pair is `(draw binding, read binding)`. -/
def fbBindingStep (bound : ℕ × ℕ) : Cmd → ℕ × ℕ
  | .bindFramebuffer t f =>
      if t = GL_FRAMEBUFFER then (f, f)
      else if t = GL_DRAW_FRAMEBUFFER then (f, bound.2)
      else if t = GL_READ_FRAMEBUFFER then (bound.1, f)
      else bound
  | _ => bound

/-- The pixel-writing commands executed while the draw framebuffer binding is
`fboH`, in order — the contents-determining trace of the offscreen render
target. -/
def offscreenWrites (fboH : ℕ) : List Cmd → ℕ × ℕ → List Cmd
  | [], _ => []
  | c :: rest, bound =>
      if writesPixels c ∧ bound.1 = fboH then
        c :: offscreenWrites fboH rest (fbBindingStep bound c)
      else
        offscreenWrites fboH rest (fbBindingStep bound c)

/-! ## The transform block buffer

`glBufferSubData(GL_UNIFORM_BUFFER, byteOffset, size, data)` writes `size`
bytes at `byteOffset`; GL floats are 4 bytes, both offsets used by the
program are 4-byte aligned, and the buffer is modelled as a map from float
slot (byte offset / 4) to value. -/

/-- A `glBufferSubData` write of `data.length` floats at byte offset
`byteOffset` into a float-slot-indexed buffer. -/
def writeFloats (buf : ℕ → ℚ) (byteOffset : ℕ) (data : List ℚ) : ℕ → ℚ :=
  fun n => if byteOffset / 4 ≤ n ∧ n < byteOffset / 4 + data.length
           then data.getD (n - byteOffset / 4) 0 else buf n

/-- The effect of `updateTransformBlock` (main.cpp:702-722) on the transform
UBO contents: the 48-byte transposed world-to-view matrix at byte offset 0,
then the 64-byte projection matrix at byte offset `sizeof(glm::mat3x4)`. -/
def updateTransformBlockBuffer (worldToView projection : Mat4) (buf : ℕ → ℚ) : ℕ → ℚ :=
  writeFloats (writeFloats buf 0 (flatten3x4 (packM worldToView)))
    sizeofMat3x4 (flatten4 projection)

/-! ### The startup scenario -/

/-- The application state right after a successful `initOpenGL` run:
cull-face enabled and one `resizeCallback` at the default 800×600 window
size, which created the framebuffer at the startup `msaaLevel`
(`MSAA_SAMPLES`). -/
def initSuccessState : AppState :=
  resizeCallback DefaultWidth DefaultHeight { initState with cullFaceEnabled := true }

/-- The application state after `initOpenGL` and `createGeometry` — the state
in which the main loop starts rendering.  `rand` is the `getRandom` stream. -/
def scenarioState (rand : ℕ → ℚ) : AppState :=
  createGeometry rand initSuccessState

/-- A concrete render context over the startup state, used to instantiate the
frame-level theorems: identity camera matrices, angle-zero trig values, and
arbitrary small collaborator handles. -/
def witnessCtx : RenderContext where
  app := initSuccessState
  nc := numCubes
  worldToView := idMat4
  projection := idMat4
  viewPos := fun _ => 0
  piQ := 0
  trig := fun _ => (1, 0)
  ax := ⟨1, 1, 1⟩
  shaderDefault := 11
  shaderInstancing := 12
  shaderPoint := 13
  shaderTonemap := 14
  texWhite := 21
  texGrey := 22
  texBlue := 23
  texChecker := 24
  texDiffuse := 25
  texNormal := 26
  texSpecular := 27
  texOcclusion := 28
  samplerAniso := 31
  lightLoc := 1
  viewPosLoc := 2
  pointPosLoc := 3
  quadVAO := 41
  cubeVAO := 42
  quadIBOSize := 6
  cubeIBOSize := 36

/-! ## Helper lemmas -/

theorem updateInstanceStaging_ge (nc : ℕ) (positions : List Vec3) (piQ : ℚ)
    (trig : ℚ → ℚ × ℚ) (ax : Vec3) (buf : ℕ → Mat3x4) (j : ℕ) (hj : nc ≤ j) :
    updateInstanceStaging nc positions piQ trig ax buf j = buf j := by
  induction nc generalizing buf with
  | zero => rfl
  | succ n ih =>
    unfold updateInstanceStaging
    rw [List.range_succ, List.foldl_append]
    simp only [List.foldl_cons, List.foldl_nil]
    rw [show (List.range n).foldl
      (fun b i => Function.update b i (packM (instanceTransform positions piQ trig ax i))) buf
      = updateInstanceStaging n positions piQ trig ax buf from rfl]
    rw [Function.update_noteq (by omega)]
    exact ih buf (by omega)

theorem updateInstanceStaging_lt (nc : ℕ) (positions : List Vec3) (piQ : ℚ)
    (trig : ℚ → ℚ × ℚ) (ax : Vec3) (buf : ℕ → Mat3x4) (i : ℕ) (hi : i < nc) :
    updateInstanceStaging nc positions piQ trig ax buf i
      = packM (instanceTransform positions piQ trig ax i) := by
  induction nc generalizing buf with
  | zero => omega
  | succ n ih =>
    unfold updateInstanceStaging
    rw [List.range_succ, List.foldl_append]
    simp only [List.foldl_cons, List.foldl_nil]
    rw [show (List.range n).foldl
      (fun b i => Function.update b i (packM (instanceTransform positions piQ trig ax i))) buf
      = updateInstanceStaging n positions piQ trig ax buf from rfl]
    rcases Nat.lt_succ_iff_lt_or_eq.mp hi with h | h
    · rw [Function.update_noteq (by omega)]
      exact ih buf h
    · subst h
      exact Function.update_same _ _ _

@[simp] theorem fin4_val_zero : ((0 : Fin 4) : ℕ) = 0 := rfl
@[simp] theorem fin4_val_one : ((1 : Fin 4) : ℕ) = 1 := rfl
@[simp] theorem fin4_val_two : ((2 : Fin 4) : ℕ) = 2 := rfl
@[simp] theorem fin4_val_three : ((3 : Fin 4) : ℕ) = 3 := rfl
@[simp] theorem fin3_val_zero : ((0 : Fin 3) : ℕ) = 0 := rfl
@[simp] theorem fin3_val_one : ((1 : Fin 3) : ℕ) = 1 := rfl
@[simp] theorem fin3_val_two : ((2 : Fin 3) : ℕ) = 2 := rfl

/-! ## Claims -/

/-- Claim C5: for every instance index `i < numCubes`, the per-frame instance
update stores at entry `i` the world transform
`translation(cubePositions[i]) * rotation(axis (1,1,1), angle = i * 20
degrees)`, transposed into the 3-column/4-row `mat3x4` packing of the
instance record (`rotateM`/`radiansQ` take the transcendental cosine, sine, π
and normalized-axis values as parameters, see the module docstring). -/
theorem c5_instance_world_transform (nc : ℕ) (positions : List Vec3) (piQ : ℚ)
    (trig : ℚ → ℚ × ℚ) (ax : Vec3) (buf : ℕ → Mat3x4) (i : ℕ) (hi : i < nc) :
    updateInstanceStaging nc positions piQ trig ax buf i
      = packM (mul4 (translateM (positions.getD i vzero))
          (rotateM (trig (radiansQ ((i : ℚ) * 20) piQ)).1
            (trig (radiansQ ((i : ℚ) * 20) piQ)).2 ax)) :=
  updateInstanceStaging_lt nc positions piQ trig ax buf i hi

/-- Concrete instantiation of `c5_instance_world_transform` at index 0 of a
one-cube scene. -/
theorem c5_witness :
    0 < 1 ∧
    updateInstanceStaging 1 [⟨1, 2, 3⟩] 3 (fun q => (q, q + 1)) ⟨1, 1, 1⟩
        (fun _ _ _ => 0) 0
      = packM (mul4 (translateM (([⟨1, 2, 3⟩] : List Vec3).getD 0 vzero))
          (rotateM ((fun q => (q, q + 1)) (radiansQ (((0 : ℕ) : ℚ) * 20) 3)).1
            ((fun q => (q, q + 1)) (radiansQ (((0 : ℕ) : ℚ) * 20) 3)).2 ⟨1, 1, 1⟩)) :=
  ⟨by decide,
   c5_instance_world_transform 1 [⟨1, 2, 3⟩] 3 (fun q => (q, q + 1)) ⟨1, 1, 1⟩
     (fun _ _ _ => 0) 0 (by decide)⟩

/-- Claim C6: the transposed 3x4 packing is invertible on the transforms the
instance updater produces: every such transform is affine (implicit last
`(0,0,0,1)`), and unpacking per the spec (re-transpose, restore the implicit
part) is exact — hence in particular within any floating-point tolerance. -/
theorem c6_packing_invertible :
    (∀ M : Mat4, lastRowAffine M → unpackM (packM M) = M) ∧
    (∀ (p : Vec3) (cosA sinA : ℚ) (ax : Vec3),
      lastRowAffine (mul4 (translateM p) (rotateM cosA sinA ax))) := by
  constructor
  · intro M hM
    funext c r
    simp only [unpackM, packM]
    split
    · rfl
    · rename_i h3
      have hr : r = (3 : Fin 4) := Fin.ext (by have := r.isLt; omega)
      rw [hr, hM c]
  · intro p cosA sinA ax c
    show mul4 (translateM p) (rotateM cosA sinA ax) c 3 = _
    fin_cases c <;>
      simp [mul4, Fin.sum_univ_four, translateM, rotateM]

/-- Concrete instantiation of `c6_packing_invertible`: the packing of the
affine transform `translateM ⟨1, 2, 3⟩` unpacks to itself. -/
theorem c6_witness :
    lastRowAffine (translateM ⟨1, 2, 3⟩) ∧
    unpackM (packM (translateM ⟨1, 2, 3⟩)) = translateM ⟨1, 2, 3⟩ :=
  ⟨by unfold lastRowAffine; decide,
   c6_packing_invertible.1 _ (by unfold lastRowAffine; decide)⟩

/-- Claim C1: a configured instance count exceeding `MAX_INSTANCES` makes
`initOpenGL` fail at startup; conversely a successful startup bounds the
count by the capacity; and the per-frame instance update never writes any
staging entry at or beyond the configured count — so with a successful
startup no write goes beyond the capacity. -/
theorem c1_capacity_guard (nc maxUbo : ℕ) (s : AppState) :
    (MAX_INSTANCES < nc → initOpenGL nc maxUbo s = none) ∧
    (∀ s2, initOpenGL nc maxUbo s = some s2 → nc ≤ MAX_INSTANCES) ∧
    (∀ (positions : List Vec3) (piQ : ℚ) (trig : ℚ → ℚ × ℚ) (ax : Vec3)
       (buf : ℕ → Mat3x4) (j : ℕ), nc ≤ j →
       updateInstanceStaging nc positions piQ trig ax buf j = buf j) := by
  refine ⟨?_, ?_, ?_⟩
  · intro h
    simp [initOpenGL, h]
  · intro s2 hs2
    by_contra hgt
    rw [Nat.not_le] at hgt
    unfold initOpenGL at hs2
    rcases Nat.lt_or_ge maxUbo expectedUboSize with hu | hu
    · rw [if_pos hu] at hs2
      exact Option.noConfusion hs2
    · rw [if_neg (Nat.not_lt.mpr hu), if_pos hgt] at hs2
      exact Option.noConfusion hs2
  · intro positions piQ trig ax buf j hj
    exact updateInstanceStaging_ge nc positions piQ trig ax buf j hj

/-- Concrete instantiation of `c1_capacity_guard`: 1025 cubes are rejected at
startup, and a 1025-cube update leaves staging entry 2000 untouched. -/
theorem c1_witness :
    initOpenGL 1025 65536 initState = none ∧
    updateInstanceStaging 1025 [] 0 (fun _ => (0, 0)) vzero (fun _ _ _ => 0) 2000
      = (fun _ _ _ => (0 : ℚ)) 2000 :=
  ⟨(c1_capacity_guard 1025 65536 initState).1 (by decide),
   (c1_capacity_guard 1025 65536 initState).2.2 [] 0 (fun _ => (0, 0)) vzero
     (fun _ _ _ => 0) 2000 (by decide)⟩

/-! ### Projection lemmas for the `createFramebuffer` phases and key branches -/

@[simp] theorem cfBindDefault_msaaLevel (s : AppState) :
    (cfBindDefault s).msaaLevel = s.msaaLevel := rfl
@[simp] theorem cfEnsureFbo_msaaLevel (s : AppState) :
    (cfEnsureFbo s).msaaLevel = s.msaaLevel := by unfold cfEnsureFbo; split <;> rfl
@[simp] theorem cfBindFbo_msaaLevel (s : AppState) :
    (cfBindFbo s).msaaLevel = s.msaaLevel := rfl
@[simp] theorem cfDeleteColor_msaaLevel (s : AppState) :
    (cfDeleteColor s).msaaLevel = s.msaaLevel := by unfold cfDeleteColor; split <;> rfl
@[simp] theorem cfGenColor_msaaLevel (s : AppState) :
    (cfGenColor s).msaaLevel = s.msaaLevel := by unfold cfGenColor; split <;> rfl
@[simp] theorem cfStoreColor_msaaLevel (w h : Int) (m : ℕ) (s : AppState) :
    (cfStoreColor w h m s).msaaLevel = s.msaaLevel := rfl
@[simp] theorem cfDeleteDepth_msaaLevel (s : AppState) :
    (cfDeleteDepth s).msaaLevel = s.msaaLevel := by unfold cfDeleteDepth; split <;> rfl
@[simp] theorem cfGenDepth_msaaLevel (s : AppState) :
    (cfGenDepth s).msaaLevel = s.msaaLevel := by unfold cfGenDepth; split <;> rfl
@[simp] theorem cfStoreDepth_msaaLevel (s : AppState) :
    (cfStoreDepth s).msaaLevel = s.msaaLevel := rfl

@[simp] theorem createFramebuffer_msaaLevel (w h : Int) (m : ℕ) (s : AppState) :
    (createFramebuffer w h m s).msaaLevel = s.msaaLevel := by
  simp [createFramebuffer]

@[simp] theorem cfBindDefault_fbSamples (s : AppState) :
    (cfBindDefault s).fbSamples = s.fbSamples := rfl
@[simp] theorem cfEnsureFbo_fbSamples (s : AppState) :
    (cfEnsureFbo s).fbSamples = s.fbSamples := by unfold cfEnsureFbo; split <;> rfl
@[simp] theorem cfBindFbo_fbSamples (s : AppState) :
    (cfBindFbo s).fbSamples = s.fbSamples := rfl
@[simp] theorem cfDeleteColor_fbSamples (s : AppState) :
    (cfDeleteColor s).fbSamples = s.fbSamples := by unfold cfDeleteColor; split <;> rfl
@[simp] theorem cfGenColor_fbSamples (s : AppState) :
    (cfGenColor s).fbSamples = s.fbSamples := by unfold cfGenColor; split <;> rfl
@[simp] theorem cfStoreColor_fbSamples (w h : Int) (m : ℕ) (s : AppState) :
    (cfStoreColor w h m s).fbSamples = if 1 < m then m else 1 := rfl
@[simp] theorem cfDeleteDepth_fbSamples (s : AppState) :
    (cfDeleteDepth s).fbSamples = s.fbSamples := by unfold cfDeleteDepth; split <;> rfl
@[simp] theorem cfGenDepth_fbSamples (s : AppState) :
    (cfGenDepth s).fbSamples = s.fbSamples := by unfold cfGenDepth; split <;> rfl
@[simp] theorem cfStoreDepth_fbSamples (s : AppState) :
    (cfStoreDepth s).fbSamples = s.fbSamples := rfl

@[simp] theorem createFramebuffer_fbSamples (w h : Int) (m : ℕ) (s : AppState) :
    (createFramebuffer w h m s).fbSamples = if 1 < m then m else 1 := by
  simp [createFramebuffer]

@[simp] theorem cfBindDefault_cubePositions (s : AppState) :
    (cfBindDefault s).cubePositions = s.cubePositions := rfl
@[simp] theorem cfEnsureFbo_cubePositions (s : AppState) :
    (cfEnsureFbo s).cubePositions = s.cubePositions := by unfold cfEnsureFbo; split <;> rfl
@[simp] theorem cfBindFbo_cubePositions (s : AppState) :
    (cfBindFbo s).cubePositions = s.cubePositions := rfl
@[simp] theorem cfDeleteColor_cubePositions (s : AppState) :
    (cfDeleteColor s).cubePositions = s.cubePositions := by unfold cfDeleteColor; split <;> rfl
@[simp] theorem cfGenColor_cubePositions (s : AppState) :
    (cfGenColor s).cubePositions = s.cubePositions := by unfold cfGenColor; split <;> rfl
@[simp] theorem cfStoreColor_cubePositions (w h : Int) (m : ℕ) (s : AppState) :
    (cfStoreColor w h m s).cubePositions = s.cubePositions := rfl
@[simp] theorem cfDeleteDepth_cubePositions (s : AppState) :
    (cfDeleteDepth s).cubePositions = s.cubePositions := by unfold cfDeleteDepth; split <;> rfl
@[simp] theorem cfGenDepth_cubePositions (s : AppState) :
    (cfGenDepth s).cubePositions = s.cubePositions := by unfold cfGenDepth; split <;> rfl
@[simp] theorem cfStoreDepth_cubePositions (s : AppState) :
    (cfStoreDepth s).cubePositions = s.cubePositions := rfl

@[simp] theorem createFramebuffer_cubePositions (w h : Int) (m : ℕ) (s : AppState) :
    (createFramebuffer w h m s).cubePositions = s.cubePositions := by
  simp [createFramebuffer]

@[simp] theorem kcEscape_cubePositions (k a : ℕ) (s : AppState) :
    (kcEscape k a s).cubePositions = s.cubePositions := by unfold kcEscape; split <;> rfl
@[simp] theorem kcMsaaToggle_cubePositions (k a : ℕ) (s : AppState) :
    (kcMsaaToggle k a s).cubePositions = s.cubePositions := by
  unfold kcMsaaToggle; split
  · split <;> simp
  · rfl
@[simp] theorem kcWireframe_cubePositions (k a : ℕ) (s : AppState) :
    (kcWireframe k a s).cubePositions = s.cubePositions := by unfold kcWireframe; split <;> rfl
@[simp] theorem kcCullFace_cubePositions (k a : ℕ) (s : AppState) :
    (kcCullFace k a s).cubePositions = s.cubePositions := by unfold kcCullFace; split <;> rfl
@[simp] theorem kcDepthTest_cubePositions (k a : ℕ) (s : AppState) :
    (kcDepthTest k a s).cubePositions = s.cubePositions := by unfold kcDepthTest; split <;> rfl
@[simp] theorem kcVsync_cubePositions (k a : ℕ) (s : AppState) :
    (kcVsync k a s).cubePositions = s.cubePositions := by unfold kcVsync; split <;> rfl
@[simp] theorem kcTonemapping_cubePositions (k a : ℕ) (s : AppState) :
    (kcTonemapping k a s).cubePositions = s.cubePositions := by
  unfold kcTonemapping; split <;> rfl
@[simp] theorem kcZoomIn_cubePositions (k a : ℕ) (s : AppState) :
    (kcZoomIn k a s).cubePositions = s.cubePositions := by unfold kcZoomIn; split <;> rfl
@[simp] theorem kcZoomOut_cubePositions (k a : ℕ) (s : AppState) :
    (kcZoomOut k a s).cubePositions = s.cubePositions := by unfold kcZoomOut; split <;> rfl
@[simp] theorem kcFovReset_cubePositions (k a : ℕ) (s : AppState) :
    (kcFovReset k a s).cubePositions = s.cubePositions := by unfold kcFovReset; split <;> rfl

/-! ### Take-prefix invariance of the instance upload -/

theorem take_getD_eq {l1 l2 : List Vec3} {n : ℕ} (h : l1.take n = l2.take n)
    {i : ℕ} (hi : i < n) : l1.getD i vzero = l2.getD i vzero := by
  rw [List.getD_eq_getElem?_getD, List.getD_eq_getElem?_getD,
    ← List.getElem?_take_of_lt (l := l1) hi, ← List.getElem?_take_of_lt (l := l2) hi, h]

theorem updateInstanceStaging_take_eq (nc : ℕ) (ps1 ps2 : List Vec3) (piQ : ℚ)
    (trig : ℚ → ℚ × ℚ) (ax : Vec3) (buf : ℕ → Mat3x4)
    (h : ps1.take nc = ps2.take nc) :
    updateInstanceStaging nc ps1 piQ trig ax buf
      = updateInstanceStaging nc ps2 piQ trig ax buf := by
  funext j
  rcases Nat.lt_or_ge j nc with hj | hj
  · rw [updateInstanceStaging_lt nc ps1 piQ trig ax buf j hj,
      updateInstanceStaging_lt nc ps2 piQ trig ax buf j hj]
    unfold instanceTransform
    rw [take_getD_eq h hj]
  · rw [updateInstanceStaging_ge nc ps1 piQ trig ax buf j hj,
      updateInstanceStaging_ge nc ps2 piQ trig ax buf j hj]

theorem instanceUploadFloats_take_eq (nc : ℕ) (ps1 ps2 : List Vec3) (piQ : ℚ)
    (trig : ℚ → ℚ × ℚ) (ax : Vec3) (h : ps1.take nc = ps2.take nc) :
    instanceUploadFloats nc ps1 piQ trig ax = instanceUploadFloats nc ps2 piQ trig ax := by
  unfold instanceUploadFloats
  rw [updateInstanceStaging_take_eq nc ps1 ps2 piQ trig ax (fun _ _ _ => 0) h]

theorem concatMapRange_length_const (f : ℕ → List ℚ) (m : ℕ) (hf : ∀ i, (f i).length = m) :
    ∀ n, (concatMapRange f n).length = n * m := by
  intro n
  induction n with
  | zero => simp [concatMapRange]
  | succ k ih =>
    unfold concatMapRange
    rw [List.length_append, ih, hf]
    ring

theorem instanceUploadFloats_length (nc : ℕ) (ps : List Vec3) (piQ : ℚ)
    (trig : ℚ → ℚ × ℚ) (ax : Vec3) :
    (instanceUploadFloats nc ps piQ trig ax).length = nc * 12 := by
  unfold instanceUploadFloats
  apply concatMapRange_length_const
  intro i
  simp [flatten3x4]

/-- Claim C10: the startup position list has exactly `nc + 1` entries (one
fixed plus `nc` generated, the loop running from 1 through `nc` inclusive);
the per-frame step and every key event leave it unchanged; and both the
packed instance upload and the instanced draw consume only the first `nc`
entries — two position lists agreeing on their first `nc` entries produce the
same upload, so the list's last entry is never rendered. -/
theorem c10_positions_extra_entry (nc : ℕ) (rand : ℕ → ℚ) (s : AppState)
    (positions positions2 : List Vec3) (piQ : ℚ) (trig : ℚ → ℚ × ℚ) (ax : Vec3)
    (h : positions.take nc = positions2.take nc) :
    (cubePositionsList nc rand).length = nc + 1 ∧
    (frameStep s).cubePositions = s.cubePositions ∧
    (∀ key action, (keyCallback key action s).cubePositions = s.cubePositions) ∧
    instanceUploadFloats nc positions piQ trig ax
      = instanceUploadFloats nc positions2 piQ trig ax ∧
    (∀ rc : RenderContext,
      Cmd.drawElementsInstanced rc.cubeIBOSize rc.nc ∈ renderSceneCmds rc) := by
  refine ⟨?_, ?_, ?_, ?_, ?_⟩
  · simp [cubePositionsList]
  · unfold frameStep; split <;> rfl
  · intro key action
    simp [keyCallback]
  · exact instanceUploadFloats_take_eq nc positions positions2 piQ trig ax h
  · intro rc
    simp [renderSceneCmds, offscreenCmds, cubeCmds]

/-- Concrete instantiation of `c10_positions_extra_entry`: replacing the entry
at index 2 (beyond the first two) leaves a two-cube upload unchanged. -/
theorem c10_witness :
    ([⟨1, 1, 1⟩, ⟨2, 2, 2⟩, ⟨3, 3, 3⟩] : List Vec3).take 2
        = ([⟨1, 1, 1⟩, ⟨2, 2, 2⟩, ⟨9, 9, 9⟩] : List Vec3).take 2 ∧
    instanceUploadFloats 2 [⟨1, 1, 1⟩, ⟨2, 2, 2⟩, ⟨3, 3, 3⟩] 3 (fun q => (q, q)) ⟨1, 1, 1⟩
      = instanceUploadFloats 2 [⟨1, 1, 1⟩, ⟨2, 2, 2⟩, ⟨9, 9, 9⟩] 3 (fun q => (q, q)) ⟨1, 1, 1⟩ :=
  ⟨by decide,
   (c10_positions_extra_entry 2 (fun _ => 0) initState
     [⟨1, 1, 1⟩, ⟨2, 2, 2⟩, ⟨3, 3, 3⟩] [⟨1, 1, 1⟩, ⟨2, 2, 2⟩, ⟨9, 9, 9⟩] 3
     (fun q => (q, q)) ⟨1, 1, 1⟩ (by decide)).2.2.2.1⟩


/-- Claim C9: the shutdown sequence does NOT release every framebuffer
resource with the matching deletion operation.  In the state reached by a
successful startup, `depthStencil` holds a live renderbuffer name, but
`shutDown` passes it to `glDeleteTextures` (main.cpp:569), which only erases
texture names — so the renderbuffer handle survives the whole shutdown
sequence (while the render target texture and the framebuffer object are
correctly deleted). -/
theorem c9_depth_stencil_survives_shutdown :
    initOpenGL numCubes expectedUboSize initState = some initSuccessState ∧
    initSuccessState.depthStencil ∈ initSuccessState.liveRenderbuffers ∧
    initSuccessState.depthStencil ≠ 0 ∧
    (shutDown initSuccessState).liveRenderbuffers = initSuccessState.liveRenderbuffers ∧
    initSuccessState.depthStencil ∈ (shutDown initSuccessState).liveRenderbuffers ∧
    initSuccessState.renderTarget ∉ (shutDown initSuccessState).liveTextures ∧
    initSuccessState.fbo ∉ (shutDown initSuccessState).liveFramebuffers := by
  refine ⟨?_, ?_, ?_, ?_, ?_, ?_, ?_⟩ <;> decide

/-! ### Sample-count bookkeeping for claim C8 -/

@[simp] theorem kcEscape_msaaLevel (k a : ℕ) (s : AppState) :
    (kcEscape k a s).msaaLevel = s.msaaLevel := by unfold kcEscape; split <;> rfl
@[simp] theorem kcWireframe_msaaLevel (k a : ℕ) (s : AppState) :
    (kcWireframe k a s).msaaLevel = s.msaaLevel := by unfold kcWireframe; split <;> rfl
@[simp] theorem kcCullFace_msaaLevel (k a : ℕ) (s : AppState) :
    (kcCullFace k a s).msaaLevel = s.msaaLevel := by unfold kcCullFace; split <;> rfl
@[simp] theorem kcDepthTest_msaaLevel (k a : ℕ) (s : AppState) :
    (kcDepthTest k a s).msaaLevel = s.msaaLevel := by unfold kcDepthTest; split <;> rfl
@[simp] theorem kcVsync_msaaLevel (k a : ℕ) (s : AppState) :
    (kcVsync k a s).msaaLevel = s.msaaLevel := by unfold kcVsync; split <;> rfl
@[simp] theorem kcTonemapping_msaaLevel (k a : ℕ) (s : AppState) :
    (kcTonemapping k a s).msaaLevel = s.msaaLevel := by unfold kcTonemapping; split <;> rfl
@[simp] theorem kcZoomIn_msaaLevel (k a : ℕ) (s : AppState) :
    (kcZoomIn k a s).msaaLevel = s.msaaLevel := by unfold kcZoomIn; split <;> rfl
@[simp] theorem kcZoomOut_msaaLevel (k a : ℕ) (s : AppState) :
    (kcZoomOut k a s).msaaLevel = s.msaaLevel := by unfold kcZoomOut; split <;> rfl
@[simp] theorem kcFovReset_msaaLevel (k a : ℕ) (s : AppState) :
    (kcFovReset k a s).msaaLevel = s.msaaLevel := by unfold kcFovReset; split <;> rfl

@[simp] theorem kcEscape_fbSamples (k a : ℕ) (s : AppState) :
    (kcEscape k a s).fbSamples = s.fbSamples := by unfold kcEscape; split <;> rfl
@[simp] theorem kcWireframe_fbSamples (k a : ℕ) (s : AppState) :
    (kcWireframe k a s).fbSamples = s.fbSamples := by unfold kcWireframe; split <;> rfl
@[simp] theorem kcCullFace_fbSamples (k a : ℕ) (s : AppState) :
    (kcCullFace k a s).fbSamples = s.fbSamples := by unfold kcCullFace; split <;> rfl
@[simp] theorem kcDepthTest_fbSamples (k a : ℕ) (s : AppState) :
    (kcDepthTest k a s).fbSamples = s.fbSamples := by unfold kcDepthTest; split <;> rfl
@[simp] theorem kcVsync_fbSamples (k a : ℕ) (s : AppState) :
    (kcVsync k a s).fbSamples = s.fbSamples := by unfold kcVsync; split <;> rfl
@[simp] theorem kcTonemapping_fbSamples (k a : ℕ) (s : AppState) :
    (kcTonemapping k a s).fbSamples = s.fbSamples := by unfold kcTonemapping; split <;> rfl
@[simp] theorem kcZoomIn_fbSamples (k a : ℕ) (s : AppState) :
    (kcZoomIn k a s).fbSamples = s.fbSamples := by unfold kcZoomIn; split <;> rfl
@[simp] theorem kcZoomOut_fbSamples (k a : ℕ) (s : AppState) :
    (kcZoomOut k a s).fbSamples = s.fbSamples := by unfold kcZoomOut; split <;> rfl
@[simp] theorem kcFovReset_fbSamples (k a : ℕ) (s : AppState) :
    (kcFovReset k a s).fbSamples = s.fbSamples := by unfold kcFovReset; split <;> rfl

theorem kcMsaaToggle_msaaLevel_inv (k a : ℕ) (s : AppState)
    (hm : s.msaaLevel = 1 ∨ s.msaaLevel = MSAA_SAMPLES) :
    (kcMsaaToggle k a s).msaaLevel = 1 ∨ (kcMsaaToggle k a s).msaaLevel = MSAA_SAMPLES := by
  unfold kcMsaaToggle
  split
  · split <;> simp
  · exact hm

theorem kcMsaaToggle_fbSamples_inv (k a : ℕ) (s : AppState)
    (hf : s.fbSamples = 1 ∨ s.fbSamples = MSAA_SAMPLES) :
    (kcMsaaToggle k a s).fbSamples = 1 ∨ (kcMsaaToggle k a s).fbSamples = MSAA_SAMPLES := by
  unfold kcMsaaToggle
  split
  · split <;> simp [MSAA_SAMPLES]
  · exact hf

/-- Counterexample to claim C8 as stated: `createFramebuffer` does not check
its inputs at all.  Called with width 0, height −1 and sample count 7 (none
of which a validating implementation would accept), it still deletes and
reallocates the render target and records the nonsensical dimensions and
sample count — GPU resources are (re)allocated without any validation
happening first. -/
theorem c8_no_validation :
    (createFramebuffer 0 (-1) 7 initSuccessState).liveTextures
      ≠ initSuccessState.liveTextures ∧
    (createFramebuffer 0 (-1) 7 initSuccessState).fbWidth = 0 ∧
    (createFramebuffer 0 (-1) 7 initSuccessState).fbHeight = -1 ∧
    (createFramebuffer 0 (-1) 7 initSuccessState).fbSamples = 7 := by
  refine ⟨?_, ?_, ?_, ?_⟩ <;> decide

/-- Claim C8, amended: `createFramebuffer` itself validates nothing and
unconditionally (re)allocates with whatever width, height and sample count it
is given; what holds instead is that the application can only ever hand it a
sample count of 1 or `MSAA_SAMPLES` (4) — `msaaLevel` is invariantly 1 or
`MSAA_SAMPLES` across every key event and every resize (both of which pass
the current `msaaLevel` to `createFramebuffer`), and the resulting
framebuffer sample count stays 1 or `MSAA_SAMPLES`. -/
theorem c8_sample_count_invariant (key action : ℕ) (w h : Int) (s : AppState)
    (hm : s.msaaLevel = 1 ∨ s.msaaLevel = MSAA_SAMPLES)
    (hf : s.fbSamples = 1 ∨ s.fbSamples = MSAA_SAMPLES) :
    ((keyCallback key action s).msaaLevel = 1
      ∨ (keyCallback key action s).msaaLevel = MSAA_SAMPLES) ∧
    ((keyCallback key action s).fbSamples = 1
      ∨ (keyCallback key action s).fbSamples = MSAA_SAMPLES) ∧
    ((resizeCallback w h s).msaaLevel = 1
      ∨ (resizeCallback w h s).msaaLevel = MSAA_SAMPLES) ∧
    ((resizeCallback w h s).fbSamples = 1
      ∨ (resizeCallback w h s).fbSamples = MSAA_SAMPLES) := by
  refine ⟨?_, ?_, ?_, ?_⟩
  · simp only [keyCallback, kcFovReset_msaaLevel, kcZoomOut_msaaLevel, kcZoomIn_msaaLevel,
      kcTonemapping_msaaLevel, kcVsync_msaaLevel, kcDepthTest_msaaLevel,
      kcCullFace_msaaLevel, kcWireframe_msaaLevel]
    exact kcMsaaToggle_msaaLevel_inv key action _ (by simpa using hm)
  · simp only [keyCallback, kcFovReset_fbSamples, kcZoomOut_fbSamples, kcZoomIn_fbSamples,
      kcTonemapping_fbSamples, kcVsync_fbSamples, kcDepthTest_fbSamples,
      kcCullFace_fbSamples, kcWireframe_fbSamples]
    exact kcMsaaToggle_fbSamples_inv key action _ (by simpa using hf)
  · simpa [resizeCallback] using hm
  · rcases hm with hm | hm <;> simp [resizeCallback, hm, MSAA_SAMPLES]

/-- Concrete instantiation of `c8_sample_count_invariant`: pressing F1 in the
startup state keeps the sample counts in {1, MSAA_SAMPLES}. -/
theorem c8_witness :
    ((keyCallback GLFW_KEY_F1 GLFW_PRESS initSuccessState).msaaLevel = 1
      ∨ (keyCallback GLFW_KEY_F1 GLFW_PRESS initSuccessState).msaaLevel = MSAA_SAMPLES) ∧
    ((keyCallback GLFW_KEY_F1 GLFW_PRESS initSuccessState).fbSamples = 1
      ∨ (keyCallback GLFW_KEY_F1 GLFW_PRESS initSuccessState).fbSamples = MSAA_SAMPLES) :=
  ⟨(c8_sample_count_invariant GLFW_KEY_F1 GLFW_PRESS 800 600 initSuccessState
      (by decide) (by decide)).1,
   (c8_sample_count_invariant GLFW_KEY_F1 GLFW_PRESS 800 600 initSuccessState
      (by decide) (by decide)).2.1⟩

/-! ### Object bookkeeping of the `createFramebuffer` phases (claim C2) -/

@[simp] theorem cfBindDefault_renderTarget (s : AppState) :
    (cfBindDefault s).renderTarget = s.renderTarget := rfl
@[simp] theorem cfBindDefault_depthStencil (s : AppState) :
    (cfBindDefault s).depthStencil = s.depthStencil := rfl
@[simp] theorem cfBindDefault_liveTextures (s : AppState) :
    (cfBindDefault s).liveTextures = s.liveTextures := rfl
@[simp] theorem cfBindDefault_liveRenderbuffers (s : AppState) :
    (cfBindDefault s).liveRenderbuffers = s.liveRenderbuffers := rfl
@[simp] theorem cfBindDefault_nextName (s : AppState) :
    (cfBindDefault s).nextName = s.nextName := rfl

@[simp] theorem cfEnsureFbo_renderTarget (s : AppState) :
    (cfEnsureFbo s).renderTarget = s.renderTarget := by unfold cfEnsureFbo; split <;> rfl
@[simp] theorem cfEnsureFbo_depthStencil (s : AppState) :
    (cfEnsureFbo s).depthStencil = s.depthStencil := by unfold cfEnsureFbo; split <;> rfl
@[simp] theorem cfEnsureFbo_liveTextures (s : AppState) :
    (cfEnsureFbo s).liveTextures = s.liveTextures := by unfold cfEnsureFbo; split <;> rfl
@[simp] theorem cfEnsureFbo_liveRenderbuffers (s : AppState) :
    (cfEnsureFbo s).liveRenderbuffers = s.liveRenderbuffers := by
  unfold cfEnsureFbo; split <;> rfl
@[simp] theorem cfEnsureFbo_nextName (s : AppState) :
    (cfEnsureFbo s).nextName = if s.fbo = 0 then s.nextName + 1 else s.nextName := by
  unfold cfEnsureFbo; split <;> simp [*]

@[simp] theorem cfBindFbo_renderTarget (s : AppState) :
    (cfBindFbo s).renderTarget = s.renderTarget := rfl
@[simp] theorem cfBindFbo_depthStencil (s : AppState) :
    (cfBindFbo s).depthStencil = s.depthStencil := rfl
@[simp] theorem cfBindFbo_liveTextures (s : AppState) :
    (cfBindFbo s).liveTextures = s.liveTextures := rfl
@[simp] theorem cfBindFbo_liveRenderbuffers (s : AppState) :
    (cfBindFbo s).liveRenderbuffers = s.liveRenderbuffers := rfl
@[simp] theorem cfBindFbo_nextName (s : AppState) :
    (cfBindFbo s).nextName = s.nextName := rfl

@[simp] theorem cfDeleteColor_renderTarget (s : AppState) :
    (cfDeleteColor s).renderTarget
      = if s.renderTarget ∈ s.liveTextures then 0 else s.renderTarget := by
  unfold cfDeleteColor; split <;> simp [*]
@[simp] theorem cfDeleteColor_liveTextures (s : AppState) :
    (cfDeleteColor s).liveTextures
      = if s.renderTarget ∈ s.liveTextures then s.liveTextures.erase s.renderTarget
        else s.liveTextures := by
  unfold cfDeleteColor; split <;> simp [*]
@[simp] theorem cfDeleteColor_depthStencil (s : AppState) :
    (cfDeleteColor s).depthStencil = s.depthStencil := by unfold cfDeleteColor; split <;> rfl
@[simp] theorem cfDeleteColor_liveRenderbuffers (s : AppState) :
    (cfDeleteColor s).liveRenderbuffers = s.liveRenderbuffers := by
  unfold cfDeleteColor; split <;> rfl
@[simp] theorem cfDeleteColor_nextName (s : AppState) :
    (cfDeleteColor s).nextName = s.nextName := by unfold cfDeleteColor; split <;> rfl

@[simp] theorem cfGenColor_renderTarget (s : AppState) :
    (cfGenColor s).renderTarget = if s.renderTarget = 0 then s.nextName else s.renderTarget := by
  unfold cfGenColor; split <;> simp [*]
@[simp] theorem cfGenColor_liveTextures (s : AppState) :
    (cfGenColor s).liveTextures = s.liveTextures := by unfold cfGenColor; split <;> rfl
@[simp] theorem cfGenColor_depthStencil (s : AppState) :
    (cfGenColor s).depthStencil = s.depthStencil := by unfold cfGenColor; split <;> rfl
@[simp] theorem cfGenColor_liveRenderbuffers (s : AppState) :
    (cfGenColor s).liveRenderbuffers = s.liveRenderbuffers := by
  unfold cfGenColor; split <;> rfl
@[simp] theorem cfGenColor_nextName (s : AppState) :
    (cfGenColor s).nextName = if s.renderTarget = 0 then s.nextName + 1 else s.nextName := by
  unfold cfGenColor; split <;> simp [*]

@[simp] theorem cfStoreColor_renderTarget (w h : Int) (m : ℕ) (s : AppState) :
    (cfStoreColor w h m s).renderTarget = s.renderTarget := rfl
@[simp] theorem cfStoreColor_liveTextures (w h : Int) (m : ℕ) (s : AppState) :
    (cfStoreColor w h m s).liveTextures = insert s.renderTarget s.liveTextures := rfl
@[simp] theorem cfStoreColor_depthStencil (w h : Int) (m : ℕ) (s : AppState) :
    (cfStoreColor w h m s).depthStencil = s.depthStencil := rfl
@[simp] theorem cfStoreColor_liveRenderbuffers (w h : Int) (m : ℕ) (s : AppState) :
    (cfStoreColor w h m s).liveRenderbuffers = s.liveRenderbuffers := rfl
@[simp] theorem cfStoreColor_nextName (w h : Int) (m : ℕ) (s : AppState) :
    (cfStoreColor w h m s).nextName = s.nextName := rfl

@[simp] theorem cfDeleteDepth_renderTarget (s : AppState) :
    (cfDeleteDepth s).renderTarget = s.renderTarget := by unfold cfDeleteDepth; split <;> rfl
@[simp] theorem cfDeleteDepth_liveTextures (s : AppState) :
    (cfDeleteDepth s).liveTextures = s.liveTextures := by unfold cfDeleteDepth; split <;> rfl
@[simp] theorem cfDeleteDepth_depthStencil (s : AppState) :
    (cfDeleteDepth s).depthStencil
      = if s.depthStencil ∈ s.liveRenderbuffers then 0 else s.depthStencil := by
  unfold cfDeleteDepth; split <;> simp [*]
@[simp] theorem cfDeleteDepth_liveRenderbuffers (s : AppState) :
    (cfDeleteDepth s).liveRenderbuffers
      = if s.depthStencil ∈ s.liveRenderbuffers then s.liveRenderbuffers.erase s.depthStencil
        else s.liveRenderbuffers := by
  unfold cfDeleteDepth; split <;> simp [*]
@[simp] theorem cfDeleteDepth_nextName (s : AppState) :
    (cfDeleteDepth s).nextName = s.nextName := by unfold cfDeleteDepth; split <;> rfl

@[simp] theorem cfGenDepth_renderTarget (s : AppState) :
    (cfGenDepth s).renderTarget = s.renderTarget := by unfold cfGenDepth; split <;> rfl
@[simp] theorem cfGenDepth_liveTextures (s : AppState) :
    (cfGenDepth s).liveTextures = s.liveTextures := by unfold cfGenDepth; split <;> rfl
@[simp] theorem cfGenDepth_depthStencil (s : AppState) :
    (cfGenDepth s).depthStencil = if s.depthStencil = 0 then s.nextName else s.depthStencil := by
  unfold cfGenDepth; split <;> simp [*]
@[simp] theorem cfGenDepth_liveRenderbuffers (s : AppState) :
    (cfGenDepth s).liveRenderbuffers = s.liveRenderbuffers := by
  unfold cfGenDepth; split <;> rfl
@[simp] theorem cfGenDepth_nextName (s : AppState) :
    (cfGenDepth s).nextName = if s.depthStencil = 0 then s.nextName + 1 else s.nextName := by
  unfold cfGenDepth; split <;> simp [*]

@[simp] theorem cfStoreDepth_renderTarget (s : AppState) :
    (cfStoreDepth s).renderTarget = s.renderTarget := rfl
@[simp] theorem cfStoreDepth_liveTextures (s : AppState) :
    (cfStoreDepth s).liveTextures = s.liveTextures := rfl
@[simp] theorem cfStoreDepth_depthStencil (s : AppState) :
    (cfStoreDepth s).depthStencil = s.depthStencil := rfl
@[simp] theorem cfStoreDepth_liveRenderbuffers (s : AppState) :
    (cfStoreDepth s).liveRenderbuffers = insert s.depthStencil s.liveRenderbuffers := rfl
@[simp] theorem cfStoreDepth_nextName (s : AppState) :
    (cfStoreDepth s).nextName = s.nextName := rfl

/-- Claim C2: recreating the framebuffer never leaks color or depth handles.
Whatever the previous state (no target yet, or a live pair from an earlier
creation), after `createFramebuffer` the live texture set is exactly the old
one with the old render target removed and the one new render target added,
and likewise for the depth-stencil renderbuffer — the sets change by exactly
one new color/depth pair.  The two freshness hypotheses state that the
name counter is ahead of every live name, which every `glGen*` call of the
model maintains. -/
theorem c2_framebuffer_recreation_no_leak (w h : Int) (m : ℕ) (s : AppState)
    (htex : ∀ n ∈ s.liveTextures, n < s.nextName)
    (hrb : ∀ n ∈ s.liveRenderbuffers, n < s.nextName) :
    (createFramebuffer w h m s).liveTextures
      = insert (createFramebuffer w h m s).renderTarget (s.liveTextures.erase s.renderTarget) ∧
    (createFramebuffer w h m s).renderTarget ∉ s.liveTextures ∧
    (createFramebuffer w h m s).liveRenderbuffers
      = insert (createFramebuffer w h m s).depthStencil
          (s.liveRenderbuffers.erase s.depthStencil) ∧
    (createFramebuffer w h m s).depthStencil ∉ s.liveRenderbuffers := by
  refine ⟨?_, ?_, ?_, ?_⟩ <;>
    simp only [createFramebuffer, cfStoreDepth_liveTextures, cfStoreDepth_renderTarget,
      cfStoreDepth_depthStencil, cfStoreDepth_liveRenderbuffers, cfStoreDepth_nextName,
      cfGenDepth_renderTarget, cfGenDepth_liveTextures, cfGenDepth_depthStencil,
      cfGenDepth_liveRenderbuffers, cfGenDepth_nextName,
      cfDeleteDepth_renderTarget, cfDeleteDepth_liveTextures, cfDeleteDepth_depthStencil,
      cfDeleteDepth_liveRenderbuffers, cfDeleteDepth_nextName,
      cfStoreColor_renderTarget, cfStoreColor_liveTextures, cfStoreColor_depthStencil,
      cfStoreColor_liveRenderbuffers, cfStoreColor_nextName,
      cfGenColor_renderTarget, cfGenColor_liveTextures, cfGenColor_depthStencil,
      cfGenColor_liveRenderbuffers, cfGenColor_nextName,
      cfDeleteColor_renderTarget, cfDeleteColor_liveTextures, cfDeleteColor_depthStencil,
      cfDeleteColor_liveRenderbuffers, cfDeleteColor_nextName,
      cfBindFbo_renderTarget, cfBindFbo_liveTextures, cfBindFbo_depthStencil,
      cfBindFbo_liveRenderbuffers, cfBindFbo_nextName,
      cfEnsureFbo_renderTarget, cfEnsureFbo_liveTextures, cfEnsureFbo_depthStencil,
      cfEnsureFbo_liveRenderbuffers, cfEnsureFbo_nextName,
      cfBindDefault_renderTarget, cfBindDefault_liveTextures, cfBindDefault_depthStencil,
      cfBindDefault_liveRenderbuffers, cfBindDefault_nextName] <;>
    split_ifs <;>
    first
      | rfl
      | (simp_all [Finset.erase_eq_self]; done)
      | (intro hmem; have h1 := htex _ hmem; omega)
      | (intro hmem; have h1 := hrb _ hmem; omega)

/-- Concrete instantiation of `c2_framebuffer_recreation_no_leak`: recreating
the framebuffer of the startup state (simulating an MSAA toggle to level 1)
replaces the live render target by exactly one fresh one. -/
theorem c2_witness :
    (∀ n ∈ initSuccessState.liveTextures, n < initSuccessState.nextName) ∧
    (∀ n ∈ initSuccessState.liveRenderbuffers, n < initSuccessState.nextName) ∧
    ((createFramebuffer 640 480 1 initSuccessState).liveTextures
      = insert (createFramebuffer 640 480 1 initSuccessState).renderTarget
          (initSuccessState.liveTextures.erase initSuccessState.renderTarget)) ∧
    (createFramebuffer 640 480 1 initSuccessState).renderTarget
      ∉ initSuccessState.liveTextures ∧
    ((createFramebuffer 640 480 1 initSuccessState).liveRenderbuffers
      = insert (createFramebuffer 640 480 1 initSuccessState).depthStencil
          (initSuccessState.liveRenderbuffers.erase initSuccessState.depthStencil)) :=
  ⟨by decide, by decide,
   (c2_framebuffer_recreation_no_leak 640 480 1 initSuccessState (by decide) (by decide)).1,
   (c2_framebuffer_recreation_no_leak 640 480 1 initSuccessState (by decide) (by decide)).2.1,
   (c2_framebuffer_recreation_no_leak 640 480 1 initSuccessState (by decide) (by decide)).2.2.1⟩

/-- Claim C4: in every frame, some transform-block write precedes the first
(hence every) draw call, the instance-buffer upload precedes the one
instanced draw, and the whole frame contains exactly one instanced draw
command — whatever the depth-test, MSAA, wireframe and tonemapping states. -/
theorem c4_frame_ordering (rc : RenderContext) :
    precedes isTransformWrite isDraw (renderSceneCmds rc) = true ∧
    precedes isInstanceUpload isInstancedDraw (renderSceneCmds rc) = true ∧
    (renderSceneCmds rc).countP isInstancedDraw = 1 := by
  refine ⟨?_, ?_, ?_⟩
  · simp [renderSceneCmds, updateTransformBlockCmds, precedes, isDraw, isTransformWrite]
  · rcases hd : rc.app.depthTest <;> by_cases hm : 1 < rc.app.msaaLevel <;>
      rcases hw : rc.app.wireframe <;>
      simp [renderSceneCmds, updateTransformBlockCmds, offscreenCmds, floorCmds, cubeCmds,
        updateProgramDataCmds, bindTexturesCmds, updateInstanceDataCmds, lightCmds,
        precedes, isInstanceUpload, isInstancedDraw, hd, hm, hw]
  · rcases hd : rc.app.depthTest <;> by_cases hm : 1 < rc.app.msaaLevel <;>
      rcases hw : rc.app.wireframe <;> rcases ht : rc.app.tonemapping <;>
      simp [renderSceneCmds, updateTransformBlockCmds, offscreenCmds, floorCmds, cubeCmds,
        updateProgramDataCmds, bindTexturesCmds, updateInstanceDataCmds, lightCmds,
        presentCmds, isInstancedDraw, hd, hm, hw, ht, List.countP_cons, List.countP_append]

/-! ### Offscreen-content independence from the tonemapping flag (claim C3) -/

theorem offscreenWrites_append (f : ℕ) (l1 l2 : List Cmd) (b : ℕ × ℕ) :
    offscreenWrites f (l1 ++ l2) b
      = offscreenWrites f l1 b ++ offscreenWrites f l2 (l1.foldl fbBindingStep b) := by
  induction l1 generalizing b with
  | nil => rfl
  | cons c rest ih =>
    simp only [List.cons_append, offscreenWrites, List.foldl_cons]
    split_ifs with hc
    · simp [ih]
    · exact ih _

/-- Neither presentation path writes a single pixel to the offscreen render
target: the tonemap pass draws with the window framebuffer bound, and the
blit writes to the window framebuffer (it only reads the offscreen one). -/
theorem presentCmds_offscreenWrites (rc : RenderContext) (b : ℕ × ℕ)
    (hfbo : 0 < rc.app.fbo) :
    offscreenWrites rc.app.fbo (presentCmds rc) b = [] := by
  have hne : ¬ (0 = rc.app.fbo) := by omega
  rcases ht : rc.app.tonemapping <;>
    simp [presentCmds, ht, offscreenWrites, fbBindingStep, writesPixels,
      GL_FRAMEBUFFER, GL_DRAW_FRAMEBUFFER, GL_READ_FRAMEBUFFER, hne]

theorem updateTransformBlockCmds_tonemap (rc : RenderContext) (t : Bool) :
    updateTransformBlockCmds { rc with app := { rc.app with tonemapping := t } }
      = updateTransformBlockCmds rc := by
  simp [updateTransformBlockCmds]

theorem offscreenCmds_tonemap (rc : RenderContext) (t : Bool) :
    offscreenCmds { rc with app := { rc.app with tonemapping := t } } = offscreenCmds rc := by
  simp [offscreenCmds, floorCmds, cubeCmds, lightCmds, updateProgramDataCmds,
    bindTexturesCmds, updateInstanceDataCmds]

/-- Claim C3: with identical scene state, a frame rendered with tonemapping on
and one with it off issue exactly the same pixel writes to the offscreen
render target (so its contents agree), and the whole command stream up to the
presentation phase is identical — the tonemapping flag is consulted only
after all offscreen work. -/
theorem c3_tonemap_only_presentation (rc : RenderContext) (t1 t2 : Bool)
    (hfbo : 0 < rc.app.fbo) :
    offscreenWrites rc.app.fbo
        (renderSceneCmds { rc with app := { rc.app with tonemapping := t1 } }) (0, 0)
      = offscreenWrites rc.app.fbo
        (renderSceneCmds { rc with app := { rc.app with tonemapping := t2 } }) (0, 0) ∧
    updateTransformBlockCmds { rc with app := { rc.app with tonemapping := t1 } }
        ++ offscreenCmds { rc with app := { rc.app with tonemapping := t1 } }
      = updateTransformBlockCmds { rc with app := { rc.app with tonemapping := t2 } }
        ++ offscreenCmds { rc with app := { rc.app with tonemapping := t2 } } := by
  constructor
  · have key : ∀ t : Bool,
        offscreenWrites rc.app.fbo
          (renderSceneCmds { rc with app := { rc.app with tonemapping := t } }) (0, 0)
        = offscreenWrites rc.app.fbo
            (updateTransformBlockCmds rc ++ offscreenCmds rc) (0, 0) := by
      intro t
      unfold renderSceneCmds
      rw [List.append_assoc, offscreenWrites_append, offscreenWrites_append,
        updateTransformBlockCmds_tonemap, offscreenCmds_tonemap,
        offscreenWrites_append]
      rw [presentCmds_offscreenWrites { rc with app := { rc.app with tonemapping := t } } _ hfbo]
      simp
    rw [key t1, key t2]
  · rw [updateTransformBlockCmds_tonemap rc t1, offscreenCmds_tonemap rc t1,
      updateTransformBlockCmds_tonemap rc t2, offscreenCmds_tonemap rc t2]


/-- Concrete instantiation of `c3_tonemap_only_presentation` over the startup
state: toggling tonemapping leaves the offscreen pixel writes unchanged. -/
theorem c3_witness :
    0 < witnessCtx.app.fbo ∧
    offscreenWrites witnessCtx.app.fbo
        (renderSceneCmds { witnessCtx with app := { witnessCtx.app with tonemapping := true } })
        (0, 0)
      = offscreenWrites witnessCtx.app.fbo
          (renderSceneCmds { witnessCtx with app := { witnessCtx.app with tonemapping := false } })
          (0, 0) :=
  ⟨by decide, (c3_tonemap_only_presentation witnessCtx true false (by decide)).1⟩

/-- Claim C7: every frame starts by overwriting the transform block before any
draw; the buffer layout is the 48-byte (12-float) transposed world-to-view
matrix at byte offset 0 immediately followed by the 64-byte (16-float)
projection matrix at byte offset `sizeof(glm::mat3x4) = 48`, leaving all
bytes past offset 112 untouched; and in the 800×600 / sampleCount 4 /
numCubes 10 startup scenario, after one frame the framebuffer dimensions are
800×600 (at 4 samples) and the instance upload carries exactly 10 records. -/
theorem c7_transform_block_layout_and_scenario (w2v proj : Mat4) (ubo : ℕ → ℚ)
    (rc : RenderContext) (rand : ℕ → ℚ) (piQ : ℚ) (trig : ℚ → ℚ × ℚ) (ax : Vec3) :
    (∀ k, k < 12 → updateTransformBlockBuffer w2v proj ubo k
        = (flatten3x4 (packM w2v)).getD k 0) ∧
    (∀ k, k < 16 → updateTransformBlockBuffer w2v proj ubo (sizeofMat3x4 / 4 + k)
        = (flatten4 proj).getD k 0) ∧
    (∀ k, 28 ≤ k → updateTransformBlockBuffer w2v proj ubo k = ubo k) ∧
    sizeofMat3x4 = 48 ∧ sizeofMat4x4 = 64 ∧
    updateTransformBlockCmds rc
      = [Cmd.bindBuffer GL_UNIFORM_BUFFER rc.app.transformBlockUBO,
         Cmd.bufferSubData 0 (flatten3x4 (packM rc.worldToView)),
         Cmd.bufferSubData sizeofMat3x4 (flatten4 rc.projection),
         Cmd.bindBuffer GL_UNIFORM_BUFFER 0] ∧
    precedes isTransformWrite isDraw (renderSceneCmds rc) = true ∧
    initOpenGL numCubes expectedUboSize initState = some initSuccessState ∧
    numCubes = 10 ∧
    (frameStep (scenarioState rand)).fbWidth = 800 ∧
    (frameStep (scenarioState rand)).fbHeight = 600 ∧
    (frameStep (scenarioState rand)).fbSamples = MSAA_SAMPLES ∧
    (instanceUploadFloats numCubes (scenarioState rand).cubePositions piQ trig ax).length
      = numCubes * 12 := by
  have hA : (flatten3x4 (packM w2v)).length = 12 := rfl
  have hB : (flatten4 proj).length = 16 := rfl
  have h12 : sizeofMat3x4 / 4 = 12 := rfl
  have h0 : (0 : ℕ) / 4 = 0 := rfl
  refine ⟨?_, ?_, ?_, rfl, rfl, rfl, ?_, rfl, rfl, ?_, ?_, ?_, ?_⟩
  · intro k hk
    unfold updateTransformBlockBuffer writeFloats
    rw [h12, h0, hA, hB]
    rw [if_neg (by omega), if_pos (by omega)]
    simp
  · intro k hk
    unfold updateTransformBlockBuffer writeFloats
    rw [h12, hB]
    rw [if_pos (by omega), Nat.add_sub_cancel_left]
  · intro k hk
    unfold updateTransformBlockBuffer writeFloats
    rw [h12, h0, hA, hB]
    rw [if_neg (by omega), if_neg (by omega)]
  · simp [renderSceneCmds, updateTransformBlockCmds, precedes, isDraw, isTransformWrite]
  · rfl
  · rfl
  · rfl
  · exact instanceUploadFloats_length numCubes _ piQ trig ax

/-- Concrete instantiation of `c7_transform_block_layout_and_scenario`:
float slot 0 carries the transposed world-to-view data, slot 12 (byte offset
48) the projection data, slot 30 is untouched, and the scenario framebuffer
width after one frame is 800. -/
theorem c7_witness :
    updateTransformBlockBuffer idMat4 idMat4 (fun _ => 5) 0
      = (flatten3x4 (packM idMat4)).getD 0 0 ∧
    updateTransformBlockBuffer idMat4 idMat4 (fun _ => 5) (sizeofMat3x4 / 4 + 0)
      = (flatten4 idMat4).getD 0 0 ∧
    updateTransformBlockBuffer idMat4 idMat4 (fun _ => 5) 30 = (fun _ => (5 : ℚ)) 30 ∧
    (frameStep (scenarioState (fun _ => 0))).fbWidth = 800 := by
  have h := c7_transform_block_layout_and_scenario idMat4 idMat4 (fun _ => 5) witnessCtx
    (fun _ => 0) 0 (fun _ => (1, 0)) ⟨1, 1, 1⟩
  exact ⟨h.1 0 (by decide), h.2.1 0 (by decide), h.2.2.1 30 (by decide),
    h.2.2.2.2.2.2.2.2.2.1⟩
